import Mathlib

/-!
Verification development for the photo-registration batch pipeline.

The definitions below are shallow embeddings of the Python sources:
`qr_generator.py` (payload encoding), `qr_detector.py` (payload decoding),
`photo_processor.py` (Phase 1 grouping engine, Phase 2 drive upload,
commit-with-retry) and `drive_uploader.py` (per-person upload workflow).
Python strings are modelled as `List Char` (the properties under study
restrict attention to ASCII content); database rows are records; the
image-detection, file-system and Drive-API boundaries are oracles passed
in as explicit parameters.  Machine-level side effects that no property
mentions (timestamps, the human-readable `current_action` progress text,
thumbnail creation, the periodic every-50th-photo progress log entry)
are not modelled.
-/

/-- Python `str.strip` whitespace class restricted to ASCII: space, tab,
newline, carriage return, vertical tab, form feed. -/
def isPyWhitespace (c : Char) : Bool :=
  c = ' ' || c = '\t' || c = '\n' || c = '\r' || c = '\x0b' || c = '\x0c'

/-- Python `str.strip()` on ASCII content: drop leading and trailing
whitespace. -/
def pyStrip (s : List Char) : List Char :=
  (((s.dropWhile isPyWhitespace).reverse).dropWhile isPyWhitespace).reverse

/-- Python `str.lower()` on one ASCII character. -/
def pyLowerChar (c : Char) : Char :=
  if 'A' ≤ c && c ≤ 'Z' then Char.ofNat (c.toNat + 32) else c

/-- Python `str.lower()` on ASCII content. -/
def pyLower (s : List Char) : List Char := s.map pyLowerChar

/-- Python `int(s)` on an already-stripped ASCII string: an optional sign
followed by a nonempty run of decimal digits.  (Underscore digit
separators, which CPython also accepts, are not modelled; no property
depends on them.)  Returns `none` where `int` raises `ValueError`. -/
def pyParseNat : List Char → Option Nat
  | [] => none
  | s =>
    if s.all Char.isDigit then
      some (s.foldl (fun a c => a * 10 + (c.toNat - 48)) 0)
    else none

/-- Python `int(s)` including the optional sign. -/
def pyParseInt (s : List Char) : Option Int :=
  match s with
  | '-' :: rest => (pyParseNat rest).map (fun n => -(n : Int))
  | '+' :: rest => (pyParseNat rest).map (fun n => (n : Int))
  | _ => (pyParseNat s).map (fun n => (n : Int))

/-- Decimal rendering of a natural number, as produced by Python string
interpolation `f"{registration_id}"` for a nonnegative int. -/
def natToDigitsAux : Nat → Nat → List Char → List Char
  | 0, _, acc => acc
  | fuel + 1, n, acc =>
    let d := Char.ofNat (48 + n % 10)
    if n < 10 then d :: acc else natToDigitsAux fuel (n / 10) (d :: acc)

/-- Decimal rendering of a natural number. -/
def natToDigits (n : Nat) : List Char := natToDigitsAux (n + 1) n []

/-- Splitting on the pipe character, as Python `qr_string.split('|')`:
always returns one more part than there are pipes. -/
def splitPipe : List Char → List (List Char)
  | [] => [[]]
  | c :: rest =>
    match splitPipe rest with
    | [] => [[]]
    | h :: t => if c = '|' then [] :: h :: t else (c :: h) :: t

/-- Decoded identity payload, exactly the dictionary built by
`qr_detector.parse_qr_data` (note: `registration_id` stays a string
there). -/
structure ParsedQR where
  first_name : List Char
  last_name : List Char
  email : List Char
  registration_id : List Char
  qr_token : List Char
deriving Repr, DecidableEq, Inhabited

/-- Embedding of `qr_generator.generate_qr_data`: the pipe-delimited
wire string `first|last|email|registration_id|qr_token`. -/
def generate_qr_data (first_name last_name email : List Char)
    (registration_id : Nat) (qr_token : List Char) : List Char :=
  first_name ++ '|' :: last_name ++ '|' :: email ++ '|' ::
    natToDigits registration_id ++ '|' :: qr_token

/-- Embedding of `qr_detector.parse_qr_data`: split on pipes, require
exactly five parts, strip each part, lowercase the email, require every
field nonempty and the registration id numeric. -/
def parse_qr_data (qr_string : List Char) : Option ParsedQR :=
  match splitPipe qr_string with
  | [p0, p1, p2, p3, p4] =>
    let parsed : ParsedQR :=
      { first_name := pyStrip p0
        last_name := pyStrip p1
        email := pyLower (pyStrip p2)
        registration_id := pyStrip p3
        qr_token := pyStrip p4 }
    if parsed.first_name = [] || parsed.last_name = [] || parsed.email = [] ||
        parsed.registration_id = [] || parsed.qr_token = [] then
      none
    else if (pyParseInt parsed.registration_id).isSome then some parsed
    else none
  | _ => none

lemma splitPipe_ne_nil : ∀ s : List Char, splitPipe s ≠ []
  | [] => by simp [splitPipe]
  | c :: rest => by
    have ih := splitPipe_ne_nil rest
    cases h : splitPipe rest with
    | nil => exact absurd h ih
    | cons hh tt => simp only [splitPipe, h]; split <;> simp

lemma splitPipe_no_pipe (a : List Char) (h : ∀ c ∈ a, c ≠ '|') :
    splitPipe a = [a] := by
  induction a with
  | nil => simp [splitPipe]
  | cons c rest ih =>
    have hc : c ≠ '|' := h c (by simp)
    have ih2 : splitPipe rest = [rest] := ih (fun x hx => h x (by simp [hx]))
    simp [splitPipe, ih2, hc]

lemma splitPipe_append (a s : List Char) (h : ∀ c ∈ a, c ≠ '|') :
    splitPipe (a ++ '|' :: s) = a :: splitPipe s := by
  induction a with
  | nil =>
    cases hsp : splitPipe s with
    | nil => exact absurd hsp (splitPipe_ne_nil s)
    | cons hh tt => simp [splitPipe, hsp]
  | cons c rest ih =>
    have hc : c ≠ '|' := h c (by simp)
    have ih2 := ih (fun x hx => h x (by simp [hx]))
    simp [splitPipe, ih2, hc]

lemma dropWhile_all_neg {p : Char → Bool} {l : List Char}
    (h : l.all (fun c => !p c) = true) : l.dropWhile p = l := by
  cases l with
  | nil => rfl
  | cons c cs =>
    simp only [List.all_cons, Bool.and_eq_true, Bool.not_eq_true'] at h
    simp [List.dropWhile_cons, h.1]

lemma pyStrip_eq_self {s : List Char}
    (h : s.all (fun c => !isPyWhitespace c) = true) : pyStrip s = s := by
  unfold pyStrip
  rw [dropWhile_all_neg h, dropWhile_all_neg (by simpa using h), List.reverse_reverse]

lemma natToDigitsAux_all (P : Char → Bool) (hd : ∀ m, m < 10 → P (Char.ofNat (48 + m)) = true) :
    ∀ fuel n acc, acc.all P = true → (natToDigitsAux fuel n acc).all P = true := by
  intro fuel
  induction fuel with
  | zero => intro n acc hacc; simpa [natToDigitsAux] using hacc
  | succ fuel ih =>
    intro n acc hacc
    have hdig : P (Char.ofNat (48 + n % 10)) = true := hd _ (Nat.mod_lt _ (by norm_num))
    simp only [natToDigitsAux]
    split
    · simp [hdig, hacc]
    · exact ih _ _ (by simp [hdig, hacc])

lemma natToDigits_all_digit (n : Nat) : (natToDigits n).all Char.isDigit = true := by
  refine natToDigitsAux_all _ (fun m hm => ?_) _ _ _ (by simp)
  interval_cases m <;> decide

lemma natToDigitsAux_ne_nil :
    ∀ fuel n acc, acc ≠ [] → natToDigitsAux fuel n acc ≠ [] := by
  intro fuel
  induction fuel with
  | zero => intro n acc hacc; simpa [natToDigitsAux] using hacc
  | succ fuel ih =>
    intro n acc hacc
    simp only [natToDigitsAux]
    split
    · simp
    · exact ih _ _ (by simp)

lemma natToDigits_ne_nil (n : Nat) : natToDigits n ≠ [] := by
  unfold natToDigits natToDigitsAux
  split
  · simp
  · exact natToDigitsAux_ne_nil _ _ _ (by simp)

lemma natToDigits_no_ws (n : Nat) :
    (natToDigits n).all (fun c => !isPyWhitespace c) = true := by
  refine natToDigitsAux_all _ (fun m hm => ?_) _ _ _ (by simp)
  interval_cases m <;> decide

lemma natToDigits_no_pipe (n : Nat) : ∀ c ∈ natToDigits n, c ≠ '|' := by
  have h := natToDigitsAux_all (fun c => decide (c ≠ '|')) (fun m hm => by interval_cases m <;> decide)
    (n + 1) n [] (by simp)
  intro c hc
  have := List.all_eq_true.mp h c hc
  simpa using this

lemma pyStrip_natToDigits (n : Nat) : pyStrip (natToDigits n) = natToDigits n :=
  pyStrip_eq_self (natToDigits_no_ws n)

lemma pyParseInt_digits (s : List Char) (hne : s ≠ [])
    (hall : s.all Char.isDigit = true) : (pyParseInt s).isSome = true := by
  cases s with
  | nil => exact absurd rfl hne
  | cons c cs =>
    have hc : c.isDigit = true := by
      have := List.all_eq_true.mp hall c (by simp)
      simpa using this
    have hnat : (pyParseNat (c :: cs)).isSome = true := by
      unfold pyParseNat
      simp [hall]
    unfold pyParseInt
    split
    · rename_i rest heq
      rw [List.cons.injEq] at heq
      rw [heq.1] at hc
      simp at hc
    · rename_i rest heq
      rw [List.cons.injEq] at heq
      rw [heq.1] at hc
      simp at hc
    · cases hp : pyParseNat (c :: cs) with
      | none => rw [hp] at hnat; simp at hnat
      | some v => simp [hp]

/-- C2 (corrected): the counterexample.  All five fields are non-empty
pipe-free ASCII, yet decoding the encoded payload does not return the
fields byte-for-byte: the decoder lowercases the email, so
`John@Example.com` comes back as `john@example.com`. -/
theorem qr_codec_c2_counterexample :
    (∀ c ∈ "John".data ++ "Doe".data ++ "John@Example.com".data ++ "tok1".data,
      c ≠ '|' ∧ c.toNat ≤ 127) ∧
    "John".data ≠ [] ∧ "Doe".data ≠ [] ∧ "John@Example.com".data ≠ [] ∧ "tok1".data ≠ [] ∧
    parse_qr_data (generate_qr_data "John".data "Doe".data "John@Example.com".data 5 "tok1".data) ≠
      some { first_name := "John".data, last_name := "Doe".data,
             email := "John@Example.com".data, registration_id := "5".data,
             qr_token := "tok1".data } ∧
    parse_qr_data (generate_qr_data "John".data "Doe".data "John@Example.com".data 5 "tok1".data) =
      some { first_name := "John".data, last_name := "Doe".data,
             email := "john@example.com".data, registration_id := "5".data,
             qr_token := "tok1".data } := by
  decide

/-- C2 (amended): decoding the encoded payload returns the original
fields with surrounding whitespace stripped and the email lowercased
(the registration id is rendered in decimal); in particular the
round-trip is byte-for-byte for pipe-free fields with no surrounding
whitespace and an already-lowercase email. -/
theorem parse_generate_qr_roundtrip (f l e t : List Char) (rid : Nat)
    (hfp : ∀ c ∈ f, c ≠ '|') (hlp : ∀ c ∈ l, c ≠ '|')
    (hep : ∀ c ∈ e, c ≠ '|') (htp : ∀ c ∈ t, c ≠ '|')
    (hf : pyStrip f ≠ []) (hl : pyStrip l ≠ []) (he : pyStrip e ≠ []) (ht : pyStrip t ≠ []) :
    parse_qr_data (generate_qr_data f l e rid t) =
      some { first_name := pyStrip f, last_name := pyStrip l,
             email := pyLower (pyStrip e), registration_id := natToDigits rid,
             qr_token := pyStrip t } := by
  have hsplit : splitPipe (generate_qr_data f l e rid t) = [f, l, e, natToDigits rid, t] := by
    unfold generate_qr_data
    simp only [List.cons_append, List.append_assoc]
    rw [splitPipe_append f _ hfp, splitPipe_append l _ hlp, splitPipe_append e _ hep,
      splitPipe_append (natToDigits rid) _ (natToDigits_no_pipe rid), splitPipe_no_pipe t htp]
  have hemail : pyLower (pyStrip e) ≠ [] := by
    unfold pyLower; simpa using he
  have hint : (pyParseInt (natToDigits rid)).isSome = true :=
    pyParseInt_digits _ (natToDigits_ne_nil rid) (natToDigits_all_digit rid)
  have hint2 : ¬ pyParseInt (natToDigits rid) = none :=
    Option.isSome_iff_ne_none.mp hint
  simp [parse_qr_data, hsplit, hf, hl, ht, hemail, hint, hint2, pyStrip_natToDigits,
    natToDigits_ne_nil]

/-- C2 witness: a concrete instance of the amended round-trip. -/
theorem parse_generate_qr_roundtrip_witness :
    parse_qr_data (generate_qr_data "Ada".data "Lovelace".data "ada@host.org".data 7 "tok7".data) =
      some { first_name := pyStrip "Ada".data, last_name := pyStrip "Lovelace".data,
             email := pyLower (pyStrip "ada@host.org".data),
             registration_id := natToDigits 7,
             qr_token := pyStrip "tok7".data } :=
  parse_generate_qr_roundtrip "Ada".data "Lovelace".data "ada@host.org".data "tok7".data 7
    (by decide) (by decide) (by decide) (by decide)
    (by decide) (by decide) (by decide) (by decide)

/-- Row of the `Registration` table, with the fields the pipeline reads
and writes (`app.py`). -/
structure Registration where
  id : Nat
  first_name : List Char
  last_name : List Char
  email : List Char
  qr_token : List Char
  photo_count : Nat
  drive_folder_id : Option String
  drive_share_link : Option String
deriving Repr, DecidableEq, Inhabited

/-- One `ProcessingLog` entry as written by `PhotoProcessor._log_action`:
the action tag and severity are modelled; the human-readable message
text and the timestamp are not. -/
structure LogEntry where
  action : String
  level : String
deriving Repr, DecidableEq, Inhabited

/-- Strategy 1 of `PhotoProcessor._match_registration`: match by
`qr_token` when the field is truthy (non-empty). -/
def tokenLookup (regs : List Registration) (qr : ParsedQR) : Option Registration :=
  if qr.qr_token ≠ [] then regs.find? (fun r => r.qr_token == qr.qr_token) else none

/-- Strategy 2 of `PhotoProcessor._match_registration`: match by primary
key `int(registration_id)` when the field is truthy; a `ValueError` from
`int` falls through to the next strategy. -/
def idLookup (regs : List Registration) (qr : ParsedQR) : Option Registration :=
  if qr.registration_id ≠ [] then
    match pyParseInt qr.registration_id with
    | some i => regs.find? (fun r => ((r.id : Int) == i))
    | none => none
  else none

/-- Strategy 3 of `PhotoProcessor._match_registration`: match by the
(first name, last name, email) triple; the three keys are always present
in a decoded payload. -/
def nameLookup (regs : List Registration) (qr : ParsedQR) : Option Registration :=
  regs.find? (fun r =>
    r.first_name == qr.first_name && r.last_name == qr.last_name && r.email == qr.email)

/-- Embedding of `PhotoProcessor._match_registration` together with the
log entry it writes: the three strategies are tried in order, each only
when the previous one returned nothing. -/
def match_registration_logged (regs : List Registration) (qr : ParsedQR) :
    Option Registration × List LogEntry :=
  match tokenLookup regs qr with
  | some r => (some r, [{ action := "qr_matched_token", level := "info" }])
  | none =>
    match idLookup regs qr with
    | some r => (some r, [{ action := "qr_matched_id", level := "info" }])
    | none =>
      match nameLookup regs qr with
      | some r => (some r, [{ action := "qr_matched_manual", level := "info" }])
      | none => (none, [{ action := "qr_no_match", level := "warning" }])

/-- The registration returned by `PhotoProcessor._match_registration`. -/
def match_registration (regs : List Registration) (qr : ParsedQR) : Option Registration :=
  (match_registration_logged regs qr).1

/-- Row of the `Photo` table, with the fields the pipeline reads and
writes (`app.py`). -/
structure PhotoRec where
  filename : List Char
  registration_id : Option Nat
  is_qr_code : Bool
  qr_data : Option (List Char)
  processed : Bool
  uploaded_to_drive : Bool
deriving Repr, DecidableEq, Inhabited

/-- One photo as seen by the Phase 1 loop: its current database row plus
the facts the file system and QR detector report about its image file
(`photo_path.exists()` and `detect_qr_in_image`, treated as oracles). -/
structure PhotoScan where
  row : PhotoRec
  onDisk : Bool
  detected : Bool
  parsed : Option ParsedQR
  raw : Option (List Char)
deriving Repr, DecidableEq, Inhabited

/-- In-memory state of the Phase 1 loop: `self.current_registration_id`
and `self.people_found`. -/
structure Phase1State where
  cur : Option Nat
  peopleFound : Nat
deriving Repr, DecidableEq, Inhabited

/-- One iteration of the Phase 1 loop of `PhotoProcessor.process_batch`
(together with `_assign_to_current_person`): skip a photo whose file is
missing; on a detected and parsed QR, match it — on success switch the
current person and take the marker photo, on failure flag the marker and
leave everything else unchanged; otherwise assign the photo to the
current person if there is one. -/
def process_photo_step (regs : List Registration) (st : Phase1State) (p : PhotoScan) :
    Phase1State × PhotoRec × List LogEntry :=
  if p.onDisk = false then
    (st, p.row, [{ action := "photo_missing", level := "error" }])
  else
    match p.detected, p.parsed with
    | true, some pd =>
      match match_registration_logged regs pd with
      | (some r, mlogs) =>
        ({ cur := some r.id, peopleFound := st.peopleFound + 1 },
         { p.row with registration_id := some r.id, is_qr_code := true, qr_data := p.raw },
         { action := "qr_detected", level := "info" } :: mlogs ++
           [{ action := "person_started", level := "info" }])
      | (none, mlogs) =>
        (st, { p.row with is_qr_code := true },
         { action := "qr_detected", level := "info" } :: mlogs ++
           [{ action := "qr_unmatched", level := "warning" }])
    | _, _ =>
      let detLog : List LogEntry :=
        if p.detected then [{ action := "qr_detected", level := "info" }] else []
      match st.cur with
      | some cid => (st, { p.row with registration_id := some cid }, detLog)
      | none =>
        (st, p.row, detLog ++ [{ action := "photo_unmatched", level := "info" }])

/-- The Phase 1 loop of `PhotoProcessor.process_batch` over the batch
photos in filename order (the order of the list, as returned by the
datastore query `order_by(Photo.filename)`). -/
def phase1_loop (regs : List Registration) :
    Phase1State → List PhotoScan → Phase1State × List PhotoRec × List LogEntry
  | st, [] => (st, [], [])
  | st, p :: rest =>
    let r1 := process_photo_step regs st p
    let r2 := phase1_loop regs r1.1 rest
    (r2.1, r1.2.1 :: r2.2.1, r1.2.2 ++ r2.2.2)

/-- Row of the `PhotoBatch` table, with the fields the pipeline reads
and writes; timestamps and the free-text progress message are not
modelled. -/
structure BatchRec where
  status : String
  peopleFound : Nat
  unmatchedPhotos : Nat
  errorMessage : Option String
deriving Repr, DecidableEq, Inhabited

/-- Number of batch photos left without an owner, as counted by the
query `filter_by(batch_id, registration_id=None).count()` at the end of
Phase 1. -/
def unmatched_count (photos : List PhotoRec) : Nat :=
  (photos.filter (fun ph => ph.registration_id == none)).length

/-- Embedding of `PhotoProcessor.process_batch` (Phase 1): raise
`ValueError("No photos found in batch")` on an empty batch — caught by
the phase boundary handler, which stores the message and sets status
`error`; otherwise run the loop, count unmatched photos, store the
aggregate counts and stop at `awaiting_review`.  Returns the updated
batch row and the updated photo rows. -/
def process_batch (regs : List Registration) (b : BatchRec) (photos : List PhotoScan) :
    BatchRec × List PhotoRec :=
  if photos.isEmpty then
    ({ b with status := "error", errorMessage := some "No photos found in batch" }, [])
  else
    let r := phase1_loop regs { cur := none, peopleFound := 0 } photos
    ({ b with
        status := "awaiting_review"
        peopleFound := r.1.peopleFound
        unmatchedPhotos := unmatched_count r.2.1 }, r.2.1)

/-- Outcome of the QR-marker test for one photo: `some rid` when the file
of the photo is present, a QR was detected and parsed, and the payload
matched registration `rid`; `none` otherwise. -/
def marker_match (regs : List Registration) (p : PhotoScan) : Option Nat :=
  if p.onDisk = false then none
  else
    match p.detected, p.parsed with
    | true, some pd => (match_registration regs pd).map (fun r => r.id)
    | _, _ => none

/-- Number of matched QR-marker photos in a batch. -/
def count_matched_markers (regs : List Registration) (photos : List PhotoScan) : Nat :=
  photos.countP (fun p => (marker_match regs p).isSome)

/-- The registration of the most recent matched QR marker in a photo
sequence, starting from `c`. -/
def last_matched (regs : List Registration) (photos : List PhotoScan) (c : Option Nat) : Option Nat :=
  photos.foldl (fun cur p =>
    match marker_match regs p with
    | some rid => some rid
    | none => cur) c

lemma process_photo_step_state (regs : List Registration) (st : Phase1State) (p : PhotoScan) :
    (process_photo_step regs st p).1 =
      { cur :=
          match marker_match regs p with
          | some rid => some rid
          | none => st.cur
        peopleFound := st.peopleFound + (if (marker_match regs p).isSome then 1 else 0) } := by
  rcases p with ⟨row, onDisk, detected, parsed, raw⟩
  rcases st with ⟨cur, pf⟩
  cases onDisk with
  | false => simp [process_photo_step, marker_match]
  | true =>
    cases detected with
    | false =>
      cases parsed <;> cases cur <;>
        simp [process_photo_step, marker_match]
    | true =>
      cases parsed with
      | none => cases cur <;> simp [process_photo_step, marker_match]
      | some pd =>
        rcases h : match_registration_logged regs pd with ⟨res, logs⟩
        cases res <;>
          simp [process_photo_step, marker_match, match_registration, h]

lemma phase1_loop_append (regs : List Registration) (st : Phase1State)
    (xs ys : List PhotoScan) :
    phase1_loop regs st (xs ++ ys) =
      ((phase1_loop regs (phase1_loop regs st xs).1 ys).1,
       (phase1_loop regs st xs).2.1 ++ (phase1_loop regs (phase1_loop regs st xs).1 ys).2.1,
       (phase1_loop regs st xs).2.2 ++ (phase1_loop regs (phase1_loop regs st xs).1 ys).2.2) := by
  induction xs generalizing st with
  | nil => simp [phase1_loop]
  | cons p rest ih => simp [phase1_loop, ih]

lemma phase1_loop_length (regs : List Registration) (st : Phase1State) (photos : List PhotoScan) :
    (phase1_loop regs st photos).2.1.length = photos.length := by
  induction photos generalizing st with
  | nil => simp [phase1_loop]
  | cons p rest ih => simp [phase1_loop, ih]

lemma phase1_loop_peopleFound (regs : List Registration) (st : Phase1State)
    (photos : List PhotoScan) :
    (phase1_loop regs st photos).1.peopleFound =
      st.peopleFound + count_matched_markers regs photos := by
  induction photos generalizing st with
  | nil => simp [phase1_loop, count_matched_markers]
  | cons p rest ih =>
    simp only [phase1_loop, ih, process_photo_step_state, count_matched_markers,
      List.countP_cons]
    cases h : (marker_match regs p).isSome <;>
      (simp [h, count_matched_markers]; try omega)

lemma phase1_loop_cur (regs : List Registration) (st : Phase1State) (photos : List PhotoScan) :
    (phase1_loop regs st photos).1.cur = last_matched regs photos st.cur := by
  induction photos generalizing st with
  | nil => simp [phase1_loop, last_matched]
  | cons p rest ih =>
    simp only [phase1_loop, ih, process_photo_step_state, last_matched, List.foldl_cons]

/-- Test fixture: a registration for Alice with token `tokA`. -/
def regAlice : Registration :=
  { id := 1, first_name := "Alice".data, last_name := "Smith".data,
    email := "alice@example.org".data, qr_token := "tokA".data,
    photo_count := 0, drive_folder_id := none, drive_share_link := none }

/-- Test fixture: a registration for Bob with token `tokB`. -/
def regBob : Registration :=
  { id := 2, first_name := "Bob".data, last_name := "Jones".data,
    email := "bob@example.org".data, qr_token := "tokB".data,
    photo_count := 0, drive_folder_id := none, drive_share_link := none }

/-- Test fixture: a freshly uploaded photo row (no owner, no flags). -/
def freshPhotoRow (nm : List Char) : PhotoRec :=
  { filename := nm, registration_id := none, is_qr_code := false,
    qr_data := none, processed := false, uploaded_to_drive := false }

/-- Test fixture: an on-disk photo without any QR code. -/
def photoPlain (nm : List Char) : PhotoScan :=
  { row := freshPhotoRow nm, onDisk := true, detected := false, parsed := none, raw := none }

/-- Test fixture: an on-disk photo carrying a parsed QR payload whose
token is `tok` (names and id deliberately matching no fixture
registration, so only the token tier can match it). -/
def photoMarker (nm tok : List Char) : PhotoScan :=
  { row := freshPhotoRow nm, onDisk := true, detected := true,
    parsed := some { first_name := "Zed".data, last_name := "Zed".data,
                     email := "zed@example.org".data, registration_id := "99".data,
                     qr_token := tok },
    raw := some tok }

/-- C10 (confirmed): running Phase 1 on a batch with zero photo records
attributes nothing: the internal `ValueError` leaves the batch in status
`error` with stored message `No photos found in batch`, and the batch
does not reach `awaiting_review`. -/
theorem process_batch_empty_batch (regs : List Registration) (b : BatchRec) :
    process_batch regs b [] =
      ({ b with status := "error", errorMessage := some "No photos found in batch" }, []) ∧
    (process_batch regs b []).1.status ≠ "awaiting_review" := by
  refine ⟨by simp [process_batch], ?_⟩
  simp only [process_batch, List.isEmpty_nil, if_true]
  decide

/-- C9 (confirmed): a Phase 1 run on a batch in `error` state stores a
`people_found` equal to the number of matched QR markers of that run;
the counter starts from zero and the stored value is overwritten, never
added to (the result does not depend on the prior `peopleFound` of the
batch row). -/
theorem process_batch_people_found (regs : List Registration) (b : BatchRec)
    (photos : List PhotoScan) (_hstatus : b.status = "error") (hne : photos ≠ []) :
    (process_batch regs b photos).1.peopleFound = count_matched_markers regs photos := by
  unfold process_batch
  rw [if_neg (by simpa using hne)]
  simp [phase1_loop_peopleFound]

/-- C9 witness: a batch already in `error` state with a stale
`peopleFound` of 7 and one matched marker photo stores exactly 1. -/
theorem process_batch_people_found_witness :
    (process_batch [regAlice, regBob]
        { status := "error", peopleFound := 7, unmatchedPhotos := 3,
          errorMessage := some "old" }
        [photoMarker "001.jpg".data "tokA".data, photoPlain "002.jpg".data]).1.peopleFound =
      count_matched_markers [regAlice, regBob]
        [photoMarker "001.jpg".data "tokA".data, photoPlain "002.jpg".data] :=
  process_batch_people_found [regAlice, regBob]
    { status := "error", peopleFound := 7, unmatchedPhotos := 3, errorMessage := some "old" }
    [photoMarker "001.jpg".data "tokA".data, photoPlain "002.jpg".data]
    rfl (by decide)

lemma process_photo_step_row (regs : List Registration) (st : Phase1State) (p : PhotoScan)
    (hfresh : p.row.registration_id = none) :
    (process_photo_step regs st p).2.1.registration_id =
      (if p.onDisk = false then none
       else
         match p.detected, p.parsed with
         | true, some pd => (match_registration regs pd).map (fun r => r.id)
         | _, _ => st.cur) := by
  rcases p with ⟨row, onDisk, detected, parsed, raw⟩
  simp only at hfresh
  rcases st with ⟨cur, pf⟩
  cases onDisk with
  | false => simp [process_photo_step, hfresh]
  | true =>
    cases detected with
    | false => cases parsed <;> cases cur <;> simp [process_photo_step, hfresh]
    | true =>
      cases parsed with
      | none => cases cur <;> simp [process_photo_step, hfresh]
      | some pd =>
        rcases h : match_registration_logged regs pd with ⟨res, logs⟩
        cases res <;> simp [process_photo_step, match_registration, h, hfresh]

/-- Owner that Phase 1 is expected to record for a photo, given the
photos before it: nothing if its file is missing; the matched
registration (or nothing) if it carries a detected-and-parsed QR; and
otherwise the person of the most recent matched marker among the
preceding photos. -/
def expected_phase1_owner (regs : List Registration) (preceding : List PhotoScan)
    (p : PhotoScan) : Option Nat :=
  if p.onDisk = false then none
  else
    match p.detected, p.parsed with
    | true, some pd => (match_registration regs pd).map (fun r => r.id)
    | _, _ => last_matched regs preceding none

/-- C1 (amended): after Phase 1 on a fresh batch, the owner of each photo is
exactly `expected_phase1_owner`: the person of the most recent matched
QR marker at or before it in filename order — equivalently, photos are
grouped into maximal contiguous runs delimited by matched markers — with
the exceptions the code imposes: a photo whose file is missing stays
unattributed, and a photo carrying its own detected-and-parsed QR gets
the registration that QR matches (or stays unattributed when that QR
matches nobody) instead of inheriting the person of the run. -/
theorem phase1_owner_exact (regs : List Registration) (pre post : List PhotoScan)
    (p : PhotoScan) (hfresh : p.row.registration_id = none) :
    ((phase1_loop regs { cur := none, peopleFound := 0 } (pre ++ p :: post)).2.1.map
        PhotoRec.registration_id).get? pre.length =
      some (expected_phase1_owner regs pre p) := by
  rw [phase1_loop_append]
  simp only [List.map_append]
  rw [List.get?_append_right (by simp [phase1_loop_length])]
  simp only [List.length_map, phase1_loop_length, Nat.sub_self]
  simp only [phase1_loop, List.map_cons, List.get?_cons_zero]
  rw [process_photo_step_row regs _ p hfresh]
  rw [phase1_loop_cur]
  simp [expected_phase1_owner]

/-- C1 witness: the photo after the marker of Alice is assigned the expected
owner. -/
theorem phase1_owner_exact_witness :
    ((phase1_loop [regAlice] { cur := none, peopleFound := 0 }
        ([photoMarker "001.jpg".data "tokA".data] ++
          photoPlain "002.jpg".data :: [])).2.1.map
        PhotoRec.registration_id).get? 1 =
      some (expected_phase1_owner [regAlice] [photoMarker "001.jpg".data "tokA".data]
        (photoPlain "002.jpg".data)) :=
  phase1_owner_exact [regAlice] [photoMarker "001.jpg".data "tokA".data] []
    (photoPlain "002.jpg".data) rfl

/-- Modelled from the spec, for comparison with the engine: the claimed C1
property on one batch — a photo is assigned to person `r` exactly when
it lies in the maximal contiguous run starting at a marker photo matched
to `r` and ending just before the next matched marker or the end of the
batch (and every photo of such a run is assigned to `r`). -/
def spec_run_assignment_holds (regs : List Registration) (photos : List PhotoScan) : Bool :=
  let outs := (phase1_loop regs { cur := none, peopleFound := 0 } photos).2.1
  regs.all fun r =>
    (List.range photos.length).all fun j =>
      (decide ((outs.getD j default).registration_id = some r.id)) ==
        ((List.range (j + 1)).any fun i =>
          (decide (marker_match regs (photos.getD i default) = some r.id)) &&
          ((List.range (j - i)).all fun d =>
            decide (marker_match regs (photos.getD (i + 1 + d) default) = none)))

/-- C1 counterexample: a fresh two-photo batch — the matched marker of Alice
followed by a marker that matches nobody.  The second photo lies in
the run of Alice (it follows her marker and no later matched marker exists),
yet Phase 1 leaves it unattributed, so the claimed run property fails
as stated. -/
theorem phase1_run_assignment_counterexample :
    (∀ p ∈ [photoMarker "001.jpg".data "tokA".data, photoMarker "002.jpg".data "tokZ".data],
        p.row.registration_id = none) ∧
    marker_match [regAlice] (photoMarker "001.jpg".data "tokA".data) = some 1 ∧
    marker_match [regAlice] (photoMarker "002.jpg".data "tokZ".data) = none ∧
    ((phase1_loop [regAlice] { cur := none, peopleFound := 0 }
        [photoMarker "001.jpg".data "tokA".data,
         photoMarker "002.jpg".data "tokZ".data]).2.1.map PhotoRec.registration_id) =
      [some 1, none] ∧
    spec_run_assignment_holds [regAlice]
      [photoMarker "001.jpg".data "tokA".data,
       photoMarker "002.jpg".data "tokZ".data] = false := by
  decide

/-- C4 (confirmed): a photo whose detected-and-parsed QR matches no
registration is flagged as a QR marker, keeps its null owner (on a fresh
batch), leaves the loop state — in particular the current person —
unchanged, and the final unmatched-photo count of the batch counts it: it is
one more than the count the same batch yields without that photo. -/
theorem phase1_unmatched_marker (regs : List Registration) (b : BatchRec)
    (pre post : List PhotoScan) (p : PhotoScan) (pd : ParsedQR) (st : Phase1State)
    (hdisk : p.onDisk = true) (hdet : p.detected = true) (hpar : p.parsed = some pd)
    (hmatch : match_registration regs pd = none) (hfresh : p.row.registration_id = none) :
    (process_photo_step regs st p).1 = st ∧
    (process_photo_step regs st p).2.1 = { p.row with is_qr_code := true } ∧
    (process_photo_step regs st p).2.1.registration_id = none ∧
    (process_batch regs b (pre ++ p :: post)).1.unmatchedPhotos =
      unmatched_count ((phase1_loop regs { cur := none, peopleFound := 0 }
        (pre ++ post)).2.1) + 1 := by
  rcases h : match_registration_logged regs pd with ⟨res, logs⟩
  have hres : res = none := by
    have := hmatch
    rw [match_registration, h] at this
    exact this
  subst hres
  have hstep : ∀ s : Phase1State, process_photo_step regs s p =
      (s, { p.row with is_qr_code := true },
       { action := "qr_detected", level := "info" } :: logs ++
         [{ action := "qr_unmatched", level := "warning" }]) := by
    intro s
    rcases p with ⟨row, onDisk, detected, parsed, raw⟩
    simp only at hdisk hdet hpar
    subst hdisk hdet hpar
    simp [process_photo_step, h]
  refine ⟨by rw [hstep], by rw [hstep], by rw [hstep]; simpa using hfresh, ?_⟩
  have hne : ((pre ++ p :: post).isEmpty) = false := by simp
  unfold process_batch
  rw [hne]
  simp only [Bool.false_eq_true, if_false]
  rw [phase1_loop_append, phase1_loop_append]
  simp only [phase1_loop, hstep]
  simp only [unmatched_count, List.filter_append, List.length_append, List.filter_cons]
  have hnone : ({ p.row with is_qr_code := true } : PhotoRec).registration_id == none := by
    simp [hfresh]
  simp [hnone]
  omega

/-- C4 witness: an unmatched marker between the marker of Alice and a plain
photo. -/
theorem phase1_unmatched_marker_witness :
    (process_photo_step [regAlice] { cur := some 1, peopleFound := 1 }
        (photoMarker "002.jpg".data "tokZ".data)).1 =
      { cur := some 1, peopleFound := 1 } ∧
    (process_photo_step [regAlice] { cur := some 1, peopleFound := 1 }
        (photoMarker "002.jpg".data "tokZ".data)).2.1 =
      { (photoMarker "002.jpg".data "tokZ".data).row with is_qr_code := true } ∧
    (process_photo_step [regAlice] { cur := some 1, peopleFound := 1 }
        (photoMarker "002.jpg".data "tokZ".data)).2.1.registration_id = none ∧
    (process_batch [regAlice]
        { status := "processing", peopleFound := 0, unmatchedPhotos := 0, errorMessage := none }
        ([photoMarker "001.jpg".data "tokA".data] ++
          photoMarker "002.jpg".data "tokZ".data :: [photoPlain "003.jpg".data])).1.unmatchedPhotos =
      unmatched_count ((phase1_loop [regAlice] { cur := none, peopleFound := 0 }
        ([photoMarker "001.jpg".data "tokA".data] ++ [photoPlain "003.jpg".data])).2.1) + 1 :=
  phase1_unmatched_marker [regAlice]
    { status := "processing", peopleFound := 0, unmatchedPhotos := 0, errorMessage := none }
    [photoMarker "001.jpg".data "tokA".data] [photoPlain "003.jpg".data]
    (photoMarker "002.jpg".data "tokZ".data)
    ((photoMarker "002.jpg".data "tokZ".data).parsed.getD default)
    { cur := some 1, peopleFound := 1 }
    rfl rfl rfl (by decide) rfl

/-- C8 (confirmed): a listed photo whose source file is absent is
handled by writing an error log entry for it and moving on: the step
leaves the loop state and the photo row unchanged, the surrounding
photos are processed exactly as they would be without the missing photo
(same final state, same rows in the same order, with the missing
unchanged row of the missing photo and its error log entry spliced in at its
position), and the batch still completes Phase 1 into
`awaiting_review`. -/
theorem phase1_missing_file (regs : List Registration) (b : BatchRec)
    (pre post : List PhotoScan) (p : PhotoScan) (st : Phase1State)
    (hdisk : p.onDisk = false) :
    process_photo_step regs st p =
      (st, p.row, [{ action := "photo_missing", level := "error" }]) ∧
    phase1_loop regs st (pre ++ p :: post) =
      ((phase1_loop regs st (pre ++ post)).1,
       (phase1_loop regs st pre).2.1 ++
         p.row :: (phase1_loop regs (phase1_loop regs st pre).1 post).2.1,
       (phase1_loop regs st pre).2.2 ++
         { action := "photo_missing", level := "error" } ::
           (phase1_loop regs (phase1_loop regs st pre).1 post).2.2) ∧
    (process_batch regs b (pre ++ p :: post)).1.status = "awaiting_review" := by
  have hstep : ∀ s : Phase1State, process_photo_step regs s p =
      (s, p.row, [{ action := "photo_missing", level := "error" }]) := by
    intro s
    simp [process_photo_step, hdisk]
  refine ⟨hstep st, ?_, ?_⟩
  · rw [phase1_loop_append, phase1_loop_append]
    simp only [phase1_loop, hstep, List.singleton_append]
  · have hne : ((pre ++ p :: post).isEmpty) = false := by simp
    unfold process_batch
    rw [hne]
    simp only [Bool.false_eq_true, if_false]

/-- C8 witness: a missing file between two plain photos. -/
theorem phase1_missing_file_witness :
    process_photo_step [regAlice] { cur := some 1, peopleFound := 1 }
        { photoPlain "002.jpg".data with onDisk := false } =
      ({ cur := some 1, peopleFound := 1 }, (photoPlain "002.jpg".data).row,
       [{ action := "photo_missing", level := "error" }]) ∧
    phase1_loop [regAlice] { cur := some 1, peopleFound := 1 }
        ([photoPlain "001.jpg".data] ++
          { photoPlain "002.jpg".data with onDisk := false } :: [photoPlain "003.jpg".data]) =
      ((phase1_loop [regAlice] { cur := some 1, peopleFound := 1 }
          ([photoPlain "001.jpg".data] ++ [photoPlain "003.jpg".data])).1,
       (phase1_loop [regAlice] { cur := some 1, peopleFound := 1 }
          [photoPlain "001.jpg".data]).2.1 ++
         (photoPlain "002.jpg".data).row ::
           (phase1_loop [regAlice]
             (phase1_loop [regAlice] { cur := some 1, peopleFound := 1 }
               [photoPlain "001.jpg".data]).1 [photoPlain "003.jpg".data]).2.1,
       (phase1_loop [regAlice] { cur := some 1, peopleFound := 1 }
          [photoPlain "001.jpg".data]).2.2 ++
         { action := "photo_missing", level := "error" } ::
           (phase1_loop [regAlice]
             (phase1_loop [regAlice] { cur := some 1, peopleFound := 1 }
               [photoPlain "001.jpg".data]).1 [photoPlain "003.jpg".data]).2.2) ∧
    (process_batch [regAlice]
        { status := "processing", peopleFound := 0, unmatchedPhotos := 0, errorMessage := none }
        ([photoPlain "001.jpg".data] ++
          { photoPlain "002.jpg".data with onDisk := false } ::
            [photoPlain "003.jpg".data])).1.status = "awaiting_review" :=
  phase1_missing_file [regAlice]
    { status := "processing", peopleFound := 0, unmatchedPhotos := 0, errorMessage := none }
    [photoPlain "001.jpg".data] [photoPlain "003.jpg".data]
    { photoPlain "002.jpg".data with onDisk := false }
    { cur := some 1, peopleFound := 1 } rfl

/-- C6 (confirmed): the matcher tries exactly the three tiers in order —
token, then numeric id, then the name-and-email triple — each tier
deciding the result only when every earlier tier found no registration;
when all three fail it returns no person, and the grouping engine keeps
processing every photo of the batch (the loop always emits one row per
photo, aborting on nothing). -/
theorem match_registration_tiers (regs : List Registration) (qr : ParsedQR)
    (st : Phase1State) (photos : List PhotoScan) :
    ((tokenLookup regs qr).isSome = true →
      match_registration regs qr = tokenLookup regs qr) ∧
    (tokenLookup regs qr = none → (idLookup regs qr).isSome = true →
      match_registration regs qr = idLookup regs qr) ∧
    (tokenLookup regs qr = none → idLookup regs qr = none →
      match_registration regs qr = nameLookup regs qr) ∧
    (tokenLookup regs qr = none → idLookup regs qr = none → nameLookup regs qr = none →
      match_registration regs qr = none) ∧
    (phase1_loop regs st photos).2.1.length = photos.length := by
  refine ⟨?_, ?_, ?_, ?_, phase1_loop_length regs st photos⟩
  · intro h
    rcases ht : tokenLookup regs qr with _ | r
    · rw [ht] at h; simp at h
    · simp [match_registration, match_registration_logged, ht]
  · intro ht h
    rcases hi : idLookup regs qr with _ | r
    · rw [hi] at h; simp at h
    · simp [match_registration, match_registration_logged, ht, hi]
  · intro ht hi
    rcases hn : nameLookup regs qr with _ | r <;>
      simp [match_registration, match_registration_logged, ht, hi, hn]
  · intro ht hi hn
    simp [match_registration, match_registration_logged, ht, hi, hn]

/-- C6 witness: a payload whose token matches nothing but whose numeric
id is that of Bob resolves through the second tier, on a concrete batch whose
output has one row per photo. -/
theorem match_registration_tiers_witness :
    ((tokenLookup [regAlice, regBob]
        { first_name := "Nope".data, last_name := "Nope".data, email := "n@x".data,
          registration_id := "2".data, qr_token := "tokZ".data }).isSome = true →
      match_registration [regAlice, regBob]
          { first_name := "Nope".data, last_name := "Nope".data, email := "n@x".data,
            registration_id := "2".data, qr_token := "tokZ".data } =
        tokenLookup [regAlice, regBob]
          { first_name := "Nope".data, last_name := "Nope".data, email := "n@x".data,
            registration_id := "2".data, qr_token := "tokZ".data }) ∧
    (tokenLookup [regAlice, regBob]
        { first_name := "Nope".data, last_name := "Nope".data, email := "n@x".data,
          registration_id := "2".data, qr_token := "tokZ".data } = none →
      (idLookup [regAlice, regBob]
        { first_name := "Nope".data, last_name := "Nope".data, email := "n@x".data,
          registration_id := "2".data, qr_token := "tokZ".data }).isSome = true →
      match_registration [regAlice, regBob]
          { first_name := "Nope".data, last_name := "Nope".data, email := "n@x".data,
            registration_id := "2".data, qr_token := "tokZ".data } =
        idLookup [regAlice, regBob]
          { first_name := "Nope".data, last_name := "Nope".data, email := "n@x".data,
            registration_id := "2".data, qr_token := "tokZ".data }) ∧
    (tokenLookup [regAlice, regBob]
        { first_name := "Nope".data, last_name := "Nope".data, email := "n@x".data,
          registration_id := "2".data, qr_token := "tokZ".data } = none →
      idLookup [regAlice, regBob]
        { first_name := "Nope".data, last_name := "Nope".data, email := "n@x".data,
          registration_id := "2".data, qr_token := "tokZ".data } = none →
      match_registration [regAlice, regBob]
          { first_name := "Nope".data, last_name := "Nope".data, email := "n@x".data,
            registration_id := "2".data, qr_token := "tokZ".data } =
        nameLookup [regAlice, regBob]
          { first_name := "Nope".data, last_name := "Nope".data, email := "n@x".data,
            registration_id := "2".data, qr_token := "tokZ".data }) ∧
    (tokenLookup [regAlice, regBob]
        { first_name := "Nope".data, last_name := "Nope".data, email := "n@x".data,
          registration_id := "2".data, qr_token := "tokZ".data } = none →
      idLookup [regAlice, regBob]
        { first_name := "Nope".data, last_name := "Nope".data, email := "n@x".data,
          registration_id := "2".data, qr_token := "tokZ".data } = none →
      nameLookup [regAlice, regBob]
        { first_name := "Nope".data, last_name := "Nope".data, email := "n@x".data,
          registration_id := "2".data, qr_token := "tokZ".data } = none →
      match_registration [regAlice, regBob]
          { first_name := "Nope".data, last_name := "Nope".data, email := "n@x".data,
            registration_id := "2".data, qr_token := "tokZ".data } = none) ∧
    (phase1_loop [regAlice, regBob] { cur := none, peopleFound := 0 }
        [photoMarker "001.jpg".data "tokZ".data, photoPlain "002.jpg".data]).2.1.length =
      ([photoMarker "001.jpg".data "tokZ".data, photoPlain "002.jpg".data] :
        List PhotoScan).length :=
  match_registration_tiers [regAlice, regBob]
    { first_name := "Nope".data, last_name := "Nope".data, email := "n@x".data,
      registration_id := "2".data, qr_token := "tokZ".data }
    { cur := none, peopleFound := 0 }
    [photoMarker "001.jpg".data "tokZ".data, photoPlain "002.jpg".data]

/-- Oracle for the Google Drive API as `drive_uploader.py` uses it:
folder creation for a person (which may raise `HttpError`, carried as a
message), per-file upload success as reported by `upload_photo` (which
catches its own exceptions and returns a boolean), and share-link
creation by folder id (which may raise). -/
structure DriveEnv where
  createPersonFolder : Except String (String × String)
  uploadOk : List Char → Bool
  shareLink : String → Except String String

/-- Embedding of `DriveUploader.upload_photos_batch`: upload each file
independently, counting successes and failures. -/
def upload_photos_batch (env : DriveEnv) : List (List Char) → Nat × Nat
  | [] => (0, 0)
  | p :: rest =>
    let r := upload_photos_batch env rest
    if env.uploadOk p then (r.1 + 1, r.2) else (r.1, r.2 + 1)

/-- Result dictionary of `DriveUploader.upload_person_photos`. -/
structure UploadResult where
  success : Bool
  folder_id : Option String
  folder_name : Option String
  share_link : Option String
  photos_uploaded : Nat
  photos_failed : Nat
  error : Option String
deriving Repr, DecidableEq

/-- The dictionary `upload_person_photos` returns from its exception
handler: total failure for the person. -/
def uploadFailureResult (paths : List (List Char)) (msg : String) : UploadResult :=
  { success := false, folder_id := none, folder_name := none, share_link := none,
    photos_uploaded := 0, photos_failed := paths.length, error := some msg }

/-- Embedding of `DriveUploader.upload_person_photos`: create the
folder of the person, upload each file independently, raise (into the
handler) when every file failed, then create the share link and report
partial or full success.  The name of the person only influences the folder
name, which the Drive oracle carries. -/
def upload_person_photos (env : DriveEnv) (paths : List (List Char)) : UploadResult :=
  match env.createPersonFolder with
  | .error e => uploadFailureResult paths e
  | .ok fidname =>
    let counts := upload_photos_batch env paths
    if counts.1 = 0 ∧ counts.2 > 0 then
      uploadFailureResult paths "All photo uploads failed. Check Drive permissions and storage quota."
    else
      match env.shareLink fidname.1 with
      | .error e => uploadFailureResult paths e
      | .ok link =>
        { success := decide (counts.1 > 0), folder_id := some fidname.1,
          folder_name := some fidname.2, share_link := some link,
          photos_uploaded := counts.1, photos_failed := counts.2,
          error := if counts.2 > 0 then some "photos failed to upload" else none }

lemma upload_photos_batch_counts (env : DriveEnv) (paths : List (List Char)) :
    upload_photos_batch env paths =
      (paths.countP env.uploadOk, paths.countP (fun p => !env.uploadOk p)) := by
  induction paths with
  | nil => simp [upload_photos_batch]
  | cons p rest ih =>
    cases h : env.uploadOk p <;>
      simp [upload_photos_batch, ih, List.countP_cons, h]

lemma countP_add_countP_neg (paths : List (List Char)) (f : List Char → Bool) :
    paths.countP f + paths.countP (fun p => !f p) = paths.length := by
  induction paths with
  | nil => simp
  | cons p rest ih =>
    cases h : f p <;> simp [List.countP_cons, h] <;> omega

/-- C5 (confirmed): for a non-empty path list, when folder creation and
share-link creation succeed, `upload_person_photos` reports success
exactly when at least one file uploads; with partial failures it still
returns the true per-file counts and a non-null share link; and when
every file fails it reports total failure. -/
theorem upload_person_photos_success (env : DriveEnv) (paths : List (List Char))
    (fid fname link : String)
    (hcf : env.createPersonFolder = .ok (fid, fname))
    (hsl : env.shareLink fid = .ok link)
    (hne : paths ≠ []) :
    ((upload_person_photos env paths).success = true ↔ 0 < paths.countP env.uploadOk) ∧
    (0 < paths.countP env.uploadOk →
      (upload_person_photos env paths).photos_uploaded = paths.countP env.uploadOk ∧
      (upload_person_photos env paths).photos_failed =
        paths.length - paths.countP env.uploadOk ∧
      (upload_person_photos env paths).share_link = some link) ∧
    (paths.countP env.uploadOk = 0 →
      (upload_person_photos env paths).success = false ∧
      (upload_person_photos env paths).photos_failed = paths.length) := by
  have hsum := countP_add_countP_neg paths env.uploadOk
  have hlen : 0 < paths.length := List.length_pos.mpr hne
  by_cases hs : paths.countP env.uploadOk = 0
  · have hif : paths.countP env.uploadOk = 0 ∧ paths.countP (fun p => !env.uploadOk p) > 0 :=
      ⟨hs, by omega⟩
    simp only [upload_person_photos, hcf, upload_photos_batch_counts]
    rw [if_pos hif]
    simp [uploadFailureResult, hs]
  · simp only [upload_person_photos, hcf, upload_photos_batch_counts]
    rw [if_neg (by simp [hs]), hsl]
    have hpos : 0 < paths.countP env.uploadOk := Nat.pos_of_ne_zero hs
    refine ⟨by simp [hpos], fun _ => ⟨rfl, by simp; omega, rfl⟩, fun h0 => absurd h0 hs⟩

/-- Test fixture: a Drive oracle where folder and share-link creation
succeed and two specific files fail to upload. -/
def driveEnvDemo : DriveEnv :=
  { createPersonFolder := .ok ("folder1", "Alice_Smith")
    uploadOk := fun p => decide (p ≠ "004.jpg".data ∧ p ≠ "005.jpg".data)
    shareLink := fun _ => .ok "https://drive.example/folder1" }

/-- Test fixture: five photo paths, of which two fail under
`driveEnvDemo`. -/
def pathsDemo : List (List Char) :=
  ["001.jpg".data, "002.jpg".data, "003.jpg".data, "004.jpg".data, "005.jpg".data]

/-- C5 witness: five files with two failures yield partial success with
the true counts and a share link. -/
theorem upload_person_photos_success_witness :
    ((upload_person_photos driveEnvDemo pathsDemo).success = true ↔
      0 < pathsDemo.countP driveEnvDemo.uploadOk) ∧
    (0 < pathsDemo.countP driveEnvDemo.uploadOk →
      (upload_person_photos driveEnvDemo pathsDemo).photos_uploaded =
        pathsDemo.countP driveEnvDemo.uploadOk ∧
      (upload_person_photos driveEnvDemo pathsDemo).photos_failed =
        pathsDemo.length - pathsDemo.countP driveEnvDemo.uploadOk ∧
      (upload_person_photos driveEnvDemo pathsDemo).share_link =
        some "https://drive.example/folder1") ∧
    (pathsDemo.countP driveEnvDemo.uploadOk = 0 →
      (upload_person_photos driveEnvDemo pathsDemo).success = false ∧
      (upload_person_photos driveEnvDemo pathsDemo).photos_failed = pathsDemo.length) :=
  upload_person_photos_success driveEnvDemo pathsDemo "folder1" "Alice_Smith"
    "https://drive.example/folder1" rfl rfl (by decide)

/-- Outcome of one `db.session.commit()` attempt as
`db_commit_with_retry` distinguishes them: success, an
`OperationalError` whose message contains `database is locked`
(retryable), or any other `OperationalError` (raised immediately). -/
inductive CommitOutcome where
  | ok : CommitOutcome
  | locked : CommitOutcome
  | fatal : CommitOutcome
deriving Repr, DecidableEq

/-- The attempt loop of `db_commit_with_retry`, tracking the remaining
iterations of `range(max_attempts)`, the current attempt index and the
back-off sleeps performed so far (`delay * 2 ** attempt` seconds, as
exact rationals).  An exhausted loop returns `False`; a raise is
`Except.error`. -/
def dbCommitAux (outcome : Nat → CommitOutcome) (maxAttempts : Nat) (delay : ℚ) :
    Nat → Nat → List ℚ → Except Unit Bool × List ℚ
  | 0, _, waits => (.ok false, waits)
  | remaining + 1, attempt, waits =>
    match outcome attempt with
    | .ok => (.ok true, waits)
    | .locked =>
      if attempt < maxAttempts - 1 then
        dbCommitAux outcome maxAttempts delay remaining (attempt + 1)
          (waits ++ [delay * 2 ^ attempt])
      else (.error (), waits)
    | .fatal => (.error (), waits)

/-- Embedding of `photo_processor.db_commit_with_retry`: commit with up
to `maxAttempts` attempts, sleeping `delay * 2 ** attempt` between
attempts when the database is locked, re-raising a lock error only on
the final attempt and any other `OperationalError` immediately.
Returns the outcome together with the performed back-off sleeps. -/
def db_commit_with_retry (outcome : Nat → CommitOutcome) (maxAttempts : Nat) (delay : ℚ) :
    Except Unit Bool × List ℚ :=
  dbCommitAux outcome maxAttempts delay maxAttempts 0 []

/-- Default arguments of `db_commit_with_retry` in the source:
`max_attempts=5`, `delay=0.5`. -/
def dbRetryDefaultMaxAttempts : Nat := 5

/-- Default base delay of `db_commit_with_retry` (0.5 seconds). -/
def dbRetryDefaultDelay : ℚ := 1 / 2

lemma dbCommitAux_all_locked (outcome : Nat → CommitOutcome) (maxA : Nat) (delay : ℚ) :
    ∀ remaining attempt waits,
      attempt + remaining = maxA → 0 < remaining →
      (∀ i, i < maxA → outcome i = CommitOutcome.locked) →
      dbCommitAux outcome maxA delay remaining attempt waits =
        (.error (), waits ++ ((List.range' attempt (maxA - 1 - attempt)).map
          fun i => delay * 2 ^ i)) := by
  intro remaining
  induction remaining with
  | zero => intro attempt waits hsum hpos hl; omega
  | succ rem ih =>
    intro attempt waits hsum hpos hl
    have hatt : attempt < maxA := by omega
    simp only [dbCommitAux, hl attempt hatt]
    by_cases hlt : attempt < maxA - 1
    · rw [if_pos hlt]
      rw [ih (attempt + 1) _ (by omega) (by omega) hl]
      have hrw : maxA - 1 - attempt = (maxA - 1 - (attempt + 1)) + 1 := by omega
      rw [hrw, List.range'_succ]
      simp [List.append_assoc]
    · rw [if_neg hlt]
      have hz : maxA - 1 - attempt = 0 := by omega
      simp [hz]

lemma dbCommitAux_success (outcome : Nat → CommitOutcome) (maxA : Nat) (delay : ℚ) :
    ∀ remaining attempt waits j,
      attempt + remaining = maxA →
      attempt ≤ j → j < maxA → outcome j = CommitOutcome.ok →
      (∀ i, attempt ≤ i → i < j → outcome i = CommitOutcome.locked) →
      dbCommitAux outcome maxA delay remaining attempt waits =
        (.ok true, waits ++ ((List.range' attempt (j - attempt)).map
          fun i => delay * 2 ^ i)) := by
  intro remaining
  induction remaining with
  | zero => intro attempt waits j hsum hle hjlt hok hl; omega
  | succ rem ih =>
    intro attempt waits j hsum hle hjlt hok hl
    by_cases hattj : attempt = j
    · subst hattj
      simp [dbCommitAux, hok]
    · have h1 : attempt < j := lt_of_le_of_ne hle hattj
      have hlocked := hl attempt le_rfl h1
      simp only [dbCommitAux, hlocked]
      rw [if_pos (by omega)]
      rw [ih (attempt + 1) _ j (by omega) (by omega) hjlt hok
        (fun i hi1 hi2 => hl i (by omega) hi2)]
      have hrw : j - attempt = (j - (attempt + 1)) + 1 := by omega
      rw [hrw, List.range'_succ]
      simp [List.append_assoc]

/-- C7 (confirmed): with attempts 0..j-1 hitting the database-is-locked
error, the commit helper sleeps `delay * 2 ** i` before retry `i + 1`
(the base delay doubling every attempt); if the lock persists through
the whole attempt budget the error surfaces as fatal only then, after
`maxAttempts - 1` back-off sleeps, while a commit that succeeds at some
attempt `j` within the budget returns success after exactly the first
`j` back-off sleeps. -/
theorem db_commit_with_retry_backoff (outcome : Nat → CommitOutcome)
    (maxAttempts : Nat) (delay : ℚ) (j : Nat)
    (hlock : ∀ i, i < j → outcome i = CommitOutcome.locked)
    (hj : j ≤ maxAttempts) (hpos : 0 < maxAttempts) :
    (j = maxAttempts →
      db_commit_with_retry outcome maxAttempts delay =
        (.error (), (List.range (maxAttempts - 1)).map fun i => delay * 2 ^ i)) ∧
    (j < maxAttempts → outcome j = CommitOutcome.ok →
      db_commit_with_retry outcome maxAttempts delay =
        (.ok true, (List.range j).map fun i => delay * 2 ^ i)) := by
  constructor
  · intro hje
    subst hje
    unfold db_commit_with_retry
    rw [dbCommitAux_all_locked outcome j delay j 0 [] (by omega) hpos
      (fun i hi => hlock i hi)]
    simp [List.range_eq_range']
  · intro hjlt hok
    unfold db_commit_with_retry
    rw [dbCommitAux_success outcome maxAttempts delay maxAttempts 0 [] j (by omega)
      (by omega) hjlt hok (fun i hi1 hi2 => hlock i hi2)]
    simp [List.range_eq_range']

/-- Test fixture: a commit oracle that is locked on attempts 0 and 1 and
succeeds on attempt 2. -/
def commitLockedTwice (i : Nat) : CommitOutcome :=
  if i < 2 then CommitOutcome.locked else CommitOutcome.ok

/-- C7 witness: with the defaults of the source (5 attempts, base delay 0.5)
and two lock errors, the commit succeeds on the third attempt after
sleeping 0.5 s and 1.0 s. -/
theorem db_commit_with_retry_backoff_witness :
    (2 = dbRetryDefaultMaxAttempts →
      db_commit_with_retry commitLockedTwice dbRetryDefaultMaxAttempts dbRetryDefaultDelay =
        (.error (), (List.range (dbRetryDefaultMaxAttempts - 1)).map
          fun i => dbRetryDefaultDelay * 2 ^ i)) ∧
    (2 < dbRetryDefaultMaxAttempts → commitLockedTwice 2 = CommitOutcome.ok →
      db_commit_with_retry commitLockedTwice dbRetryDefaultMaxAttempts dbRetryDefaultDelay =
        (.ok true, (List.range 2).map fun i => dbRetryDefaultDelay * 2 ^ i)) :=
  db_commit_with_retry_backoff commitLockedTwice dbRetryDefaultMaxAttempts
    dbRetryDefaultDelay 2 (by decide) (by decide) (by decide)

/-- Oracle for the environment of Phase 2: whether the `DriveUploader`
class imported at module load (`DriveUploader is not None`), whether
constructing and entering the uploader succeeds, the file-system facts
the copy loop checks, and the files found in the materialized
folder of each person at upload time. -/
structure Phase2Env where
  driveAvailable : Bool
  driveInitOk : Bool
  srcExists : List Char → Bool
  dstExists : List Char → Bool
  copyOk : List Char → Bool
  personDirFiles : Nat → List (List Char)

/-- The `registrations_with_photos` query of Phase 2: registrations
joined with the photos of the batch on a non-null owner. -/
def registrations_with_photos (regs : List Registration) (photos : List PhotoRec) :
    List Registration :=
  regs.filter (fun r => photos.any (fun ph => ph.registration_id == some r.id))

/-- Step 1 of Phase 2: copy each owned photo from the batch folder into
the folder of its person when the source exists and the destination does not,
marking successfully copied photos `processed`. -/
def phase2_copy_photos (env : Phase2Env) (rwp : List Registration)
    (photos : List PhotoRec) : List PhotoRec :=
  photos.map fun ph =>
    if (match ph.registration_id with
        | some rid => rwp.any (fun r => r.id == rid)
        | none => false) &&
       env.srcExists ph.filename && !env.dstExists ph.filename && env.copyOk ph.filename
    then { ph with processed := true } else ph

/-- Step 1 of Phase 2, continued: store the photo
count of each processed person on their registration row. -/
def phase2_update_counts (rwp regs : List Registration) (photos : List PhotoRec) :
    List Registration :=
  regs.map fun r =>
    if rwp.any (fun r2 => r2.id == r.id) then
      { r with photo_count := (photos.filter
          (fun ph => ph.registration_id == some r.id)).length }
    else r

/-- Step 2 of Phase 2: the per-person success flags collected in
`drive_results`.  The call
`drive_uploader.upload_person_photos(..., event_folder_name=...)` passes
a keyword argument that `upload_person_photos` does not accept, so every
attempted call raises `TypeError` before running, which the per-person
handler records as a failure; people whose folder holds no files are
skipped; a failed uploader initialization is caught and skips the whole
loop. -/
def phase2_drive_results (env : Phase2Env) (rwp : List Registration) : List Bool :=
  if rwp ≠ [] ∧ env.driveAvailable = true then
    if env.driveInitOk then
      rwp.filterMap fun r =>
        if env.personDirFiles r.id = [] then none else some false
    else []
  else []

/-- The `unmatched_photos` attribute of `PhotoProcessor` at the end of
Phase 2.  No method of the class ever assigns `self.unmatched_photos`
(`__init__` sets only `current_registration_id`, `people_found` and
`photos_processed`), so the attribute is absent and reading
`len(self.unmatched_photos)` raises `AttributeError`; `none` models the
absent attribute, and the `none` branch of the final step below mirrors
the phase-boundary exception handler. -/
def processorUnmatchedPhotosAttr : Option Nat := none

/-- Embedding of `PhotoProcessor.process_phase2_drive_upload`: set the
batch to `processing`, derive the people from persisted photo ownership,
copy their files and update counts, run the Drive upload loop, then
write the final metrics — where reading `self.unmatched_photos` raises
`AttributeError`, caught by the handler that stores the message and sets
status `error`, keeping all previously committed work.  `procPeopleFound`
is the in-memory `self.people_found` of the processor instance running
Phase 2 (written to the batch row just before the failing read). -/
def process_phase2_drive_upload (env : Phase2Env) (regs : List Registration)
    (photos : List PhotoRec) (b : BatchRec) (procPeopleFound : Nat) :
    BatchRec × List Registration × List PhotoRec :=
  let b1 := { b with status := "processing" }
  let rwp := registrations_with_photos regs photos
  let photos2 := phase2_copy_photos env rwp photos
  let regs2 := phase2_update_counts rwp regs photos2
  let results := phase2_drive_results env rwp
  let b2 := { b1 with peopleFound := procPeopleFound }
  match processorUnmatchedPhotosAttr, results with
  | some u, _ =>
    ({ b2 with unmatchedPhotos := u, status := "completed" }, regs2, photos2)
  | none, _ =>
    ({ b2 with
        status := "error"
        errorMessage :=
          some "\x27PhotoProcessor\x27 object has no attribute \x27unmatched_photos\x27" },
     regs2, photos2)

/-- C3 (code_bug): Phase 2 can never report completion.  Whatever the
environment, registrations, photos and batch, the final metrics step
reads the never-assigned `self.unmatched_photos`, so every run ends in
the exception handler: status `error` with the `AttributeError` message
stored, never `completed` — while the copy-step and count updates
performed before the failing read are kept. -/
theorem phase2_always_errors (env : Phase2Env) (regs : List Registration)
    (photos : List PhotoRec) (b : BatchRec) (procPeopleFound : Nat) :
    (process_phase2_drive_upload env regs photos b procPeopleFound).1.status = "error" ∧
    (process_phase2_drive_upload env regs photos b procPeopleFound).1.errorMessage =
      some "\x27PhotoProcessor\x27 object has no attribute \x27unmatched_photos\x27" ∧
    (process_phase2_drive_upload env regs photos b procPeopleFound).1.status ≠ "completed" ∧
    (process_phase2_drive_upload env regs photos b procPeopleFound).2.2 =
      phase2_copy_photos env (registrations_with_photos regs photos) photos ∧
    (process_phase2_drive_upload env regs photos b procPeopleFound).2.1 =
      phase2_update_counts (registrations_with_photos regs photos) regs
        (phase2_copy_photos env (registrations_with_photos regs photos) photos) := by
  refine ⟨rfl, rfl, ?_, rfl, rfl⟩
  simp [process_phase2_drive_upload, processorUnmatchedPhotosAttr]
